import Mathlib

/-!
Verification of the ShowGo authentication modal (src/components/AuthModal.tsx)
and the Supabase migration SQL (profile-creation trigger and row-level-security
policies), modelled as a shallow embedding: the component's state is a record,
its handlers are pure state-transformers, and the asynchronous remote call is
an oracle parameter describing how the remote service behaves.
-/

/-- ECMAScript white-space class: the characters matched by `\s` in a JS regular
expression and stripped by `String.prototype.trim`. -/
def isJsWs (c : Char) : Bool :=
  c = ' ' || c = '\t' || c = '\n' || c = '\u000B' || c = '\u000C' || c = '\r' ||
  c = '\u00A0' || c = '\u1680' ||
  ('\u2000' ≤ c && c ≤ '\u200A') ||
  c = '\u2028' || c = '\u2029' || c = '\u202F' || c = '\u205F' || c = '\u3000' ||
  c = '\uFEFF'

/-- JS falsiness of `s.trim()`: true when the string is empty or all white-space. -/
def isBlank (s : String) : Bool := s.data.all isJsWs

/-- A character admitted by the `[^\s@]` atom of the email regex. -/
def emailAtom (c : Char) : Bool := !(isJsWs c) && !(c = '@')

/-- The domain part of the email regex: `[^\s@]+\.[^\s@]+`, i.e. all characters
are `[^\s@]` and some `.` occurs with a non-empty part on each side. -/
def domainShape (d : List Char) : Bool :=
  d.all emailAtom &&
  (List.range d.length).any (fun i =>
    decide (1 ≤ i) && decide (i + 1 < d.length) && (d.getD i ' ' == '.'))

/-- `/^[^\s@]+@[^\s@]+\.[^\s@]+$/.test s`: the string splits as
`local ++ "@" ++ domain` with a non-empty all-`[^\s@]` local part and a domain
of shape `[^\s@]+\.[^\s@]+`. -/
def emailRegexTest (s : String) : Bool :=
  let cs := s.data
  (List.range cs.length).any (fun j =>
    (cs.getD j ' ' == '@') && decide (1 ≤ j) &&
    (cs.take j).all emailAtom && domainShape (cs.drop (j + 1)))

/-- `needle` occurs at the head of `hay` (character lists). -/
def leadsWith : List Char → List Char → Bool
  | [], _ => true
  | _ :: _, [] => false
  | a :: as, b :: bs => (a = b) && leadsWith as bs

/-- `hay` contains `needle` starting at some position. -/
def includesFrom (needle : List Char) : List Char → Bool
  | [] => leadsWith needle []
  | c :: cs => leadsWith needle (c :: cs) || includesFrom needle cs

/-- JS `hay.includes(needle)`. -/
def strIncludes (hay needle : String) : Bool := includesFrom needle.data hay.data

/-- The `formData` record of the component. -/
structure FormData where
  email : String
  password : String
  fullName : String
  confirmPassword : String
deriving DecidableEq, Repr

/-- The `errors` record of the component; a `none` field is an absent /
`undefined` key. -/
structure FormErrors where
  email : Option String
  password : Option String
  fullName : Option String
  confirmPassword : Option String
  general : Option String
deriving DecidableEq, Repr

/-- The empty errors object `{}`. -/
def noErrors : FormErrors := ⟨none, none, none, none, none⟩

/-- `Object.keys(e).length === 0` for an errors object built by `validateForm`
(a key is present exactly when the field is `some`). -/
def FormErrors.isEmpty (e : FormErrors) : Bool :=
  e.email.isNone && e.password.isNone && e.fullName.isNone &&
  e.confirmPassword.isNone && e.general.isNone

/-- The two modal modes. -/
inductive Mode
  | signin
  | signup
deriving DecidableEq, Repr

/-- `validateForm` from AuthModal.tsx: computes the fresh `newErrors` object.
The boolean result of the source function is `(validateForm ..).isEmpty`. -/
def validateForm (mode : Mode) (fd : FormData) : FormErrors :=
  { email :=
      if isBlank fd.email then some "Email is required"
      else if !emailRegexTest fd.email then some "Please enter a valid email address"
      else none
    password :=
      if fd.password = "" then some "Password is required"
      else if fd.password.length < 6 then some "Password must be at least 6 characters"
      else none
    fullName :=
      match mode with
      | .signup =>
          if isBlank fd.fullName then some "Full name is required"
          else if fd.fullName.length < 2 then some "Full name must be at least 2 characters"
          else none
      | .signin => none
    confirmPassword :=
      match mode with
      | .signup =>
          if fd.confirmPassword = "" then some "Please confirm your password"
          else if !(fd.password = fd.confirmPassword) then some "Passwords do not match"
          else none
      | .signin => none
    general := none }

/-- The validation predicate as the specification words it: email non-empty and
matching the `local@domain.tld` shape; password non-empty and at least 6
characters; in signup mode, full name present and at least 2 characters, and
confirm-password present and exactly equal to the password. -/
def claimedValidation (mode : Mode) (fd : FormData) : Bool :=
  (!(fd.email = "")) && emailRegexTest fd.email &&
  (!(fd.password = "")) && decide (6 ≤ fd.password.length) &&
  (match mode with
   | .signup =>
       (!isBlank fd.fullName) && decide (2 ≤ fd.fullName.length) &&
       (!(fd.confirmPassword = "")) && (fd.confirmPassword = fd.password)
   | .signin => true)

/-- The React state of the modal while mounted and open. -/
structure ModalState where
  mode : Mode
  formData : FormData
  errors : FormErrors
  isSubmitting : Bool
  isSuccess : Bool
  showPassword : Bool
  showConfirmPassword : Bool
deriving DecidableEq, Repr

/-- The four text inputs, identified by their `name` attribute. -/
inductive InputField
  | email
  | password
  | fullName
  | confirmPassword
deriving DecidableEq, Repr

/-- Record update `{ ...prev, [name]: value }` on `formData`. -/
def FormData.setField (fd : FormData) : InputField → String → FormData
  | .email, v => { fd with email := v }
  | .password, v => { fd with password := v }
  | .fullName, v => { fd with fullName := v }
  | .confirmPassword, v => { fd with confirmPassword := v }

/-- Read a field of `formData` by name. -/
def FormData.getField (fd : FormData) : InputField → String
  | .email => fd.email
  | .password => fd.password
  | .fullName => fd.fullName
  | .confirmPassword => fd.confirmPassword

/-- Read a per-field error by field name. -/
def FormErrors.getField (e : FormErrors) : InputField → Option String
  | .email => e.email
  | .password => e.password
  | .fullName => e.fullName
  | .confirmPassword => e.confirmPassword

/-- Record update `{ ...prev, [name]: v }` on `errors`. -/
def FormErrors.setField (e : FormErrors) : InputField → Option String → FormErrors
  | .email, v => { e with email := v }
  | .password, v => { e with password := v }
  | .fullName, v => { e with fullName := v }
  | .confirmPassword, v => { e with confirmPassword := v }

/-- `handleInputChange`: store the typed value; if the edited field currently
has an error, overwrite it with `undefined`. -/
def handleInputChange (s : ModalState) (f : InputField) (v : String) : ModalState :=
  { s with
    formData := s.formData.setField f v
    errors :=
      if (s.errors.getField f).isSome then s.errors.setField f none else s.errors }

/-- `switchMode`: toggle the mode, clear all errors, keep the email and blank
the other three fields. -/
def switchMode (s : ModalState) : ModalState :=
  { s with
    mode := match s.mode with | .signin => .signup | .signup => .signin
    errors := noErrors
    formData :=
      { email := s.formData.email
        password := ""
        fullName := ""
        confirmPassword := "" } }

/-- The reset effect that runs when the modal closes (`if (!isOpen) { ... }`):
blank all four fields, clear the errors, drop the success flag and restore the
initial mode. The visibility flags and the submitting flag are not touched. -/
def closeReset (initialMode : Mode) (s : ModalState) : ModalState :=
  { s with
    formData := { email := "", password := "", fullName := "", confirmPassword := "" }
    errors := noErrors
    isSuccess := false
    mode := initialMode }

/-- The error object carried by a failed auth result: `message` is `none` when
the field is absent (`undefined`). -/
structure AuthError where
  message : Option String
deriving DecidableEq, Repr

/-- `result.error.message?.includes(sub)` with optional chaining: an absent
message never matches. -/
def errIncludes (e : AuthError) (sub : String) : Bool :=
  match e.message with
  | some m => strIncludes m sub
  | none => false

/-- The substring table of `handleSubmit`, checked in source order; the final
branch is `result.error.message || 'An unexpected error occurred. …'`, so an
absent or empty message falls back to the generic text. -/
def mapAuthError (e : AuthError) : FormErrors :=
  if errIncludes e "Invalid login credentials" then
    ⟨none, none, none, none, some "Invalid email or password"⟩
  else if errIncludes e "User already registered" || errIncludes e "already been registered" then
    ⟨some "An account with this email already exists", none, none, none, none⟩
  else if errIncludes e "Password should be at least" then
    ⟨none, some "Password must be at least 6 characters long", none, none, none⟩
  else if errIncludes e "Unable to validate email address" then
    ⟨some "Please enter a valid email address", none, none, none, none⟩
  else if errIncludes e "Email not confirmed" then
    ⟨none, none, none, none, some "Please check your email and confirm your account before signing in"⟩
  else
    ⟨none, none, none, none, some
      (match e.message with
       | some m => if m = "" then "An unexpected error occurred. Please try again." else m
       | none => "An unexpected error occurred. Please try again.")⟩

/-- How the awaited remote call behaves: it resolves with `{ error? }` or the
`await` throws. -/
inductive RemoteBehavior
  | resolves (error : Option AuthError)
  | throws
deriving DecidableEq, Repr

/-- The synchronous prefix of `handleSubmit`: run `validateForm`; on failure
publish the new errors and stop; on success set `isSubmitting` and clear the
errors. The boolean records whether the remote call is issued. -/
def startSubmit (s : ModalState) : ModalState × Bool :=
  let errs := validateForm s.mode s.formData
  if errs.isEmpty then
    ({ s with isSubmitting := true, errors := noErrors }, true)
  else
    ({ s with errors := errs }, false)

/-- The continuation of `handleSubmit` after the remote call settles, including
the `finally` that clears `isSubmitting`. The returned list holds the delays of
the `setTimeout(onClose, …)` calls scheduled on this path. -/
def settleSubmit (s : ModalState) : RemoteBehavior → ModalState × List Nat
  | .resolves (some err) =>
      ({ s with errors := mapAuthError err, isSubmitting := false }, [])
  | .resolves none =>
      ({ s with isSuccess := true, isSubmitting := false }, [1500])
  | .throws =>
      ({ s with
          errors := ⟨none, none, none, none,
            some "Connection error. Please check your internet and try again."⟩
          isSubmitting := false }, [])

/-- Outcome of one firing of the form submit handler. -/
structure SubmitResult where
  state : ModalState
  networkCalled : Bool
  scheduledCloses : List Nat
deriving DecidableEq, Repr

/-- `handleSubmit`: validation gate, then the remote call and its settlement. -/
def handleSubmit (s : ModalState) (remote : RemoteBehavior) : SubmitResult :=
  let (s1, called) := startSubmit s
  if called then
    let (s2, closes) := settleSubmit s1 remote
    { state := s2, networkCalled := true, scheduledCloses := closes }
  else
    { state := s1, networkCalled := false, scheduledCloses := [] }

/-- A submit event as the rendered page delivers it: when the success panel is
shown the form (and its submit handler) is not rendered, and while a request is
in flight the submit button is disabled, so in both cases the event is a no-op. -/
def submitEvent (s : ModalState) (remote : RemoteBehavior) : SubmitResult :=
  if s.isSuccess || s.isSubmitting then
    { state := s, networkCalled := false, scheduledCloses := [] }
  else
    handleSubmit s remote

/-- Run a sequence of submit events, counting every scheduled `onClose`. -/
def runSubmits (s : ModalState) : List RemoteBehavior → ModalState × Nat
  | [] => (s, 0)
  | r :: rs =>
      let res := submitEvent s r
      let rest := runSubmits res.state rs
      (rest.1, res.scheduledCloses.length + rest.2)

/-- The `NEW` row of the `AFTER INSERT ON auth.users` trigger:
`raw_user_meta_data->>'full_name'` is `none` when the key is absent. -/
structure NewAuthUser where
  id : Nat
  email : String
  metaFullName : Option String
deriving DecidableEq, Repr

/-- A row of `public.user_profiles` (the columns the trigger and the policies
read). -/
structure ProfileRow where
  id : Nat
  full_name : String
  email : String
  role : String
deriving DecidableEq, Repr

/-- Whether the `INSERT INTO public.user_profiles` statement inside the trigger
raises (any error class: duplicate key, constraint violation, …). -/
inductive ProfileInsertBehavior
  | succeeds
  | raises
deriving DecidableEq, Repr

/-- Result of one firing of the trigger function. -/
structure TriggerOutcome where
  profiles : List ProfileRow
  returnedNew : Bool
  warned : Bool
deriving DecidableEq, Repr

/-- `create_user_profile()`: insert one profile row with `role = 'user'` and
`full_name = COALESCE(meta, '')`; on any exception, raise a warning and still
`RETURN NEW`. -/
def create_user_profile (b : ProfileInsertBehavior) (u : NewAuthUser)
    (profiles : List ProfileRow) : TriggerOutcome :=
  match b with
  | .succeeds =>
      { profiles := profiles ++ [⟨u.id, u.metaFullName.getD "", u.email, "user"⟩]
        returnedNew := true
        warned := false }
  | .raises =>
      { profiles := profiles
        returnedNew := true
        warned := true }

/-- The calling identity as the policies see it: `auth.uid()` and the `role`
claim of `auth.jwt()` (absent when the token carries none). -/
structure CallerIdent where
  uid : Nat
  jwtRole : Option String
deriving DecidableEq, Repr

/-- A row of `registrations` (the columns the policies read). -/
structure RegistrationRow where
  user_id : Nat
  user_email : String
deriving DecidableEq, Repr

/-- Scalar subquery `SELECT … FROM user_profiles WHERE id = auth.uid()`:
the caller's profile row, `NULL`-ish when none exists (`id` is the key). -/
def profileOf (profiles : List ProfileRow) (uid : Nat) : Option ProfileRow :=
  profiles.find? (fun p => p.id == uid)

/-- `USING` clause shared by the four per-user `registrations` policies (final
migration): `auth.uid() = user_id OR user_email = (SELECT email FROM
user_profiles WHERE id = auth.uid())`; a `NULL` subquery compares to nothing. -/
def policyOwnRegistration (profiles : List ProfileRow) (ident : CallerIdent)
    (r : RegistrationRow) : Bool :=
  (ident.uid == r.user_id) ||
  (match profileOf profiles ident.uid with
   | some p => r.user_email == p.email
   | none => false)

/-- `USING` clause of "Admins can view all registrations" (final migration):
profile role `admin`, or profile email among the two reserved addresses, or a
jwt `role` claim of `admin`. -/
def policyAdminViewRegistrations (profiles : List ProfileRow)
    (ident : CallerIdent) : Bool :=
  (match profileOf profiles ident.uid with
   | some p => p.role == "admin"
   | none => false) ||
  (match profileOf profiles ident.uid with
   | some p => p.email == "admin@showgo.com" || p.email == "support@showgo.com"
   | none => false) ||
  (ident.jwtRole == some "admin")

/-- SELECT access to a registration row: permissive policies OR together, and
the final schema has the per-user policy and the admin view policy. -/
def canSelectRegistration (profiles : List ProfileRow) (ident : CallerIdent)
    (r : RegistrationRow) : Bool :=
  policyOwnRegistration profiles ident r || policyAdminViewRegistrations profiles ident

/-- INSERT access (`WITH CHECK`): only the per-user policy exists. -/
def canInsertRegistration (profiles : List ProfileRow) (ident : CallerIdent)
    (r : RegistrationRow) : Bool :=
  policyOwnRegistration profiles ident r

/-- UPDATE access (`USING`): only the per-user policy exists. -/
def canUpdateRegistration (profiles : List ProfileRow) (ident : CallerIdent)
    (r : RegistrationRow) : Bool :=
  policyOwnRegistration profiles ident r

/-- DELETE access (`USING`): only the per-user policy exists. -/
def canDeleteRegistration (profiles : List ProfileRow) (ident : CallerIdent)
    (r : RegistrationRow) : Bool :=
  policyOwnRegistration profiles ident r

/-- The claim's grant condition, from the spec's words: the registrant
identity, an identity whose profile email matches the registration's email, or
an admin identity, admin meaning profile role `admin` or an email equal to one
of the two reserved addresses. -/
def claimedRegistrationAccess (profiles : List ProfileRow) (ident : CallerIdent)
    (r : RegistrationRow) : Bool :=
  (ident.uid == r.user_id) ||
  (match profileOf profiles ident.uid with
   | some p => r.user_email == p.email
   | none => false) ||
  (match profileOf profiles ident.uid with
   | some p =>
       p.role == "admin" || p.email == "admin@showgo.com" ||
       p.email == "support@showgo.com"
   | none => false)

/-! ### Helper lemmas -/

lemma at_mem_of_emailRegexTest {s : String} (h : emailRegexTest s = true) :
    '@' ∈ s.data := by
  unfold emailRegexTest at h
  simp only [List.any_eq_true, List.mem_range, Bool.and_eq_true, beq_iff_eq,
    decide_eq_true_eq] at h
  obtain ⟨j, hj, ⟨hat, _⟩, _⟩ := h
  rw [List.getD_eq_getElem s.data ' ' hj] at hat
  exact hat.1 ▸ List.getElem_mem hj

lemma not_all_ws_of_at_mem {l : List Char} (h : '@' ∈ l) :
    l.all isJsWs = false := by
  rw [Bool.eq_false_iff]
  intro hall
  have h2 := List.all_eq_true.mp hall _ h
  have h3 : isJsWs '@' = false := by decide
  rw [h3] at h2
  exact Bool.false_ne_true h2

lemma isBlank_eq_false_of_emailRegexTest {s : String}
    (h : emailRegexTest s = true) : isBlank s = false :=
  not_all_ws_of_at_mem (at_mem_of_emailRegexTest h)

lemma ne_empty_of_emailRegexTest {s : String}
    (h : emailRegexTest s = true) : ¬(s = "") := by
  intro he
  subst he
  exact absurd h (by decide)

lemma six_le_ne_empty {s : String} (h : 6 ≤ s.length) : ¬(s = "") := by
  intro he
  subst he
  exact absurd h (by decide)

/-- The source's boolean `validateForm` result agrees with the validation
predicate as the spec words it. -/
theorem validateForm_isEmpty_eq (m : Mode) (fd : FormData) :
    (validateForm m fd).isEmpty = claimedValidation m fd := by
  cases hreg : emailRegexTest fd.email with
  | false =>
      cases m <;>
        simp [validateForm, claimedValidation, FormErrors.isEmpty, hreg] <;>
        cases hb : isBlank fd.email <;> simp [hb]
  | true =>
      have hblank := isBlank_eq_false_of_emailRegexTest hreg
      have hne := ne_empty_of_emailRegexTest hreg
      rcases Nat.lt_or_ge fd.password.length 6 with h6 | h6
      · have hd : decide (6 ≤ fd.password.length) = false :=
          decide_eq_false (by omega)
        cases m <;>
          simp [validateForm, claimedValidation, FormErrors.isEmpty, hreg,
            hblank, hne, hd] <;>
          by_cases hpw : fd.password = "" <;> simp [hpw, h6]
      · have hd : decide (6 ≤ fd.password.length) = true :=
          decide_eq_true h6
        have hpw : ¬(fd.password = "") := six_le_ne_empty h6
        have h6n : ¬(fd.password.length < 6) := by omega
        cases m with
        | signin =>
            simp [validateForm, claimedValidation, FormErrors.isEmpty, hreg,
              hblank, hne, hd, hpw, h6n]
        | signup =>
            simp only [validateForm, claimedValidation, FormErrors.isEmpty]
            simp [hreg, hblank, hne, hd, hpw, h6n]
            cases hfb : isBlank fd.fullName <;>
              by_cases hf2 : fd.fullName.length < 2 <;>
              by_cases hcp : fd.confirmPassword = "" <;>
              by_cases hpc : fd.password = fd.confirmPassword <;>
              (simp [hfb, hf2, hcp, hpc, eq_comm]; try omega)

lemma handleSubmit_networkCalled (s : ModalState) (r : RemoteBehavior) :
    (handleSubmit s r).networkCalled = (validateForm s.mode s.formData).isEmpty := by
  unfold handleSubmit startSubmit
  cases hv : (validateForm s.mode s.formData).isEmpty <;>
    cases r with
    | throws => simp [hv, settleSubmit]
    | resolves e => cases e <;> simp [hv, settleSubmit]

lemma handleSubmit_state_of_invalid (s : ModalState) (r : RemoteBehavior)
    (h : (validateForm s.mode s.formData).isEmpty = false) :
    (handleSubmit s r).state = { s with errors := validateForm s.mode s.formData } := by
  unfold handleSubmit startSubmit
  simp [h]

/-! ### Claim theorems -/

/-- C1: submission contacts the remote auth service if and only if client-side
validation passes (email non-empty and of `local@domain.tld` shape, password
non-empty and at least 6 characters, and in signup mode full name present with
at least 2 characters and confirm-password present and equal to the password);
when validation fails the per-field errors are set and no network call occurs;
in particular email `"a@b"` with password `"hunter1"` fails validation with the
email error `"Please enter a valid email address"` and no remote call. -/
theorem submit_contacts_remote_iff_valid :
    (∀ (s : ModalState) (r : RemoteBehavior),
        (handleSubmit s r).networkCalled = claimedValidation s.mode s.formData)
    ∧ (∀ (s : ModalState) (r : RemoteBehavior),
        claimedValidation s.mode s.formData = false →
          (handleSubmit s r).networkCalled = false ∧
          (handleSubmit s r).state.errors = validateForm s.mode s.formData ∧
          (validateForm s.mode s.formData).isEmpty = false)
    ∧ (∀ (s : ModalState) (r : RemoteBehavior),
        s.formData.email = "a@b" → s.formData.password = "hunter1" →
          (handleSubmit s r).networkCalled = false ∧
          (handleSubmit s r).state.errors.email =
            some "Please enter a valid email address") := by
  have hmain : ∀ (s : ModalState) (r : RemoteBehavior),
      (handleSubmit s r).networkCalled = claimedValidation s.mode s.formData := by
    intro s r
    rw [handleSubmit_networkCalled, validateForm_isEmpty_eq]
  refine ⟨hmain, ?_, ?_⟩
  · intro s r h
    have hv : (validateForm s.mode s.formData).isEmpty = false := by
      rw [validateForm_isEmpty_eq]; exact h
    refine ⟨by rw [hmain, h], ?_, hv⟩
    rw [handleSubmit_state_of_invalid s r hv]
  · intro s r he hp
    have hreg : emailRegexTest s.formData.email = false := by
      rw [he]; decide
    have hclaim : claimedValidation s.mode s.formData = false := by
      unfold claimedValidation
      rw [hreg]
      simp
    have hv : (validateForm s.mode s.formData).isEmpty = false := by
      rw [validateForm_isEmpty_eq]; exact hclaim
    refine ⟨by rw [hmain, hclaim], ?_⟩
    rw [handleSubmit_state_of_invalid s r hv]
    have hb : isBlank s.formData.email = false := by rw [he]; decide
    simp [validateForm, hb, hreg]

/-- Witness for C1 at a concrete signin state with email `"a@b"` and password
`"hunter1"`. -/
theorem submit_contacts_remote_iff_valid_witness :
    (handleSubmit
        ⟨Mode.signin, ⟨"a@b", "hunter1", "", ""⟩, noErrors,
          false, false, false, false⟩
        RemoteBehavior.throws).networkCalled = false ∧
    (handleSubmit
        ⟨Mode.signin, ⟨"a@b", "hunter1", "", ""⟩, noErrors,
          false, false, false, false⟩
        RemoteBehavior.throws).state.errors.email =
      some "Please enter a valid email address" :=
  submit_contacts_remote_iff_valid.2.2
    ⟨Mode.signin, ⟨"a@b", "hunter1", "", ""⟩, noErrors, false, false, false, false⟩
    RemoteBehavior.throws rfl rfl

/-- No row of the substring table matches the message. -/
def noTableMatch (m : String) : Bool :=
  !(strIncludes m "Invalid login credentials") &&
  !(strIncludes m "User already registered") &&
  !(strIncludes m "already been registered") &&
  !(strIncludes m "Password should be at least") &&
  !(strIncludes m "Unable to validate email address") &&
  !(strIncludes m "Email not confirmed")

/-- C2 counterexample: a present-but-empty message matches no substring, yet
the general error is the generic fallback, not the raw (empty) message, because
the source uses `message || fallback` and `""` is falsy. -/
theorem mapAuthError_empty_message :
    noTableMatch "" = true ∧
    (mapAuthError { message := some "" }).general =
      some "An unexpected error occurred. Please try again." ∧
    ¬((mapAuthError { message := some "" }).general = some "") :=
  ⟨by decide, by decide, by decide⟩

/-- C2 (amended): remote errors map to UI errors by the fixed substring table
in source order — `Invalid login credentials` gives only the general error
`Invalid email or password`; otherwise `User already registered` or
`already been registered` gives only the email-field error; then the password
row, the unable-to-validate row and the email-not-confirmed row; when no row
matches, the general error is the raw message, or the generic fallback when the
message is absent or empty. -/
theorem mapAuthError_table :
    (∀ m, strIncludes m "Invalid login credentials" = true →
        mapAuthError ⟨some m⟩ =
          ⟨none, none, none, none, some "Invalid email or password"⟩)
    ∧ (∀ m, strIncludes m "Invalid login credentials" = false →
        (strIncludes m "User already registered" = true ∨
         strIncludes m "already been registered" = true) →
        mapAuthError ⟨some m⟩ =
          ⟨some "An account with this email already exists", none, none, none, none⟩)
    ∧ (∀ m, strIncludes m "Invalid login credentials" = false →
        strIncludes m "User already registered" = false →
        strIncludes m "already been registered" = false →
        strIncludes m "Password should be at least" = true →
        mapAuthError ⟨some m⟩ =
          ⟨none, some "Password must be at least 6 characters long", none, none, none⟩)
    ∧ (∀ m, noTableMatch m = true → ¬(m = "") →
        mapAuthError ⟨some m⟩ = ⟨none, none, none, none, some m⟩)
    ∧ (∀ m, noTableMatch m = true → m = "" →
        mapAuthError ⟨some m⟩ =
          ⟨none, none, none, none,
            some "An unexpected error occurred. Please try again."⟩)
    ∧ mapAuthError ⟨none⟩ =
        ⟨none, none, none, none,
          some "An unexpected error occurred. Please try again."⟩
    ∧ mapAuthError ⟨some "Invalid login credentials for user"⟩ =
        ⟨none, none, none, none, some "Invalid email or password"⟩ := by
  refine ⟨?_, ?_, ?_, ?_, ?_, by decide, by decide⟩
  · intro m h
    simp [mapAuthError, errIncludes, h]
  · intro m h1 h2
    rcases h2 with h2 | h2 <;> simp [mapAuthError, errIncludes, h1, h2]
  · intro m h1 h2 h3 h4
    simp [mapAuthError, errIncludes, h1, h2, h3, h4]
  · intro m hn hm
    unfold noTableMatch at hn
    simp only [Bool.and_eq_true, Bool.not_eq_true'] at hn
    obtain ⟨⟨⟨⟨⟨h1, h2⟩, h3⟩, h4⟩, h5⟩, h6⟩ := hn
    simp [mapAuthError, errIncludes, h1, h2, h3, h4, h5, h6, hm]
  · intro m hn hm
    subst hm
    decide

/-- Witness for C2 (amended) at concrete messages for the registered row and
the no-match row. -/
theorem mapAuthError_table_witness :
    mapAuthError ⟨some "This address has already been registered"⟩ =
      ⟨some "An account with this email already exists", none, none, none, none⟩ ∧
    mapAuthError ⟨some "Database timeout"⟩ =
      ⟨none, none, none, none, some "Database timeout"⟩ :=
  ⟨mapAuthError_table.2.1 "This address has already been registered"
      (by decide) (Or.inr (by decide)),
    mapAuthError_table.2.2.2.1 "Database timeout" (by decide) (by decide)⟩

lemma formData_get_set_same (fd : FormData) (f : InputField) (v : String) :
    (fd.setField f v).getField f = v := by
  cases f <;> rfl

lemma formData_get_set_other (fd : FormData) {f g : InputField}
    (h : ¬(g = f)) (v : String) :
    (fd.setField f v).getField g = fd.getField g := by
  cases f <;> cases g <;> first | rfl | exact absurd rfl h

lemma formErrors_get_set_same (e : FormErrors) (f : InputField)
    (v : Option String) : (e.setField f v).getField f = v := by
  cases f <;> rfl

lemma formErrors_get_set_other (e : FormErrors) {f g : InputField}
    (h : ¬(g = f)) (v : Option String) :
    (e.setField f v).getField g = e.getField g := by
  cases f <;> cases g <;> first | rfl | exact absurd rfl h

lemma FormErrors.general_setField (e : FormErrors) (f : InputField)
    (v : Option String) : (e.setField f v).general = e.general := by
  cases f <;> rfl

/-- C3: switching between signin and signup toggles the mode, blanks the
password, confirm-password and full-name fields, clears every field-level and
general error, and preserves the email field exactly. -/
theorem switchMode_clears_and_keeps_email (s : ModalState) :
    (switchMode s).formData.email = s.formData.email ∧
    (switchMode s).formData.password = "" ∧
    (switchMode s).formData.fullName = "" ∧
    (switchMode s).formData.confirmPassword = "" ∧
    (switchMode s).errors = noErrors ∧
    (switchMode s).mode =
      (match s.mode with | .signin => .signup | .signup => .signin) :=
  ⟨rfl, rfl, rfl, rfl, rfl, rfl⟩

/-- C4 counterexample: closing the modal does not reset the two
password-visibility flags; from a state where both are raised they stay
raised after the close reset. -/
theorem closeReset_keeps_visibility :
    (closeReset Mode.signin
        ⟨Mode.signup, ⟨"e@x.co", "secret1", "Nia", "secret1"⟩, noErrors,
          false, false, true, true⟩).showPassword = true ∧
    (closeReset Mode.signin
        ⟨Mode.signup, ⟨"e@x.co", "secret1", "Nia", "secret1"⟩, noErrors,
          false, false, true, true⟩).showConfirmPassword = true := by
  exact ⟨rfl, rfl⟩

/-- C4 (amended): closing the modal resets the four text fields, every
per-field and general error, and the success flag, and returns the mode to the
initial mode; the password-visibility flags (and the submitting flag) are left
unchanged. -/
theorem closeReset_resets (m : Mode) (s : ModalState) :
    (closeReset m s).formData.email = "" ∧
    (closeReset m s).formData.password = "" ∧
    (closeReset m s).formData.fullName = "" ∧
    (closeReset m s).formData.confirmPassword = "" ∧
    (closeReset m s).errors = noErrors ∧
    (closeReset m s).isSuccess = false ∧
    (closeReset m s).mode = m ∧
    (closeReset m s).showPassword = s.showPassword ∧
    (closeReset m s).showConfirmPassword = s.showConfirmPassword ∧
    (closeReset m s).isSubmitting = s.isSubmitting :=
  ⟨rfl, rfl, rfl, rfl, rfl, rfl, rfl, rfl, rfl, rfl⟩

/-- C9: editing a field stores exactly the typed value and clears that field's
error, while every other field's value and error and the general error are
unchanged. -/
theorem handleInputChange_frame (s : ModalState) (f g : InputField) (v : String)
    (hne : ¬(g = f)) :
    (handleInputChange s f v).formData.getField f = v ∧
    (handleInputChange s f v).errors.getField f = none ∧
    (handleInputChange s f v).formData.getField g = s.formData.getField g ∧
    (handleInputChange s f v).errors.getField g = s.errors.getField g ∧
    (handleInputChange s f v).errors.general = s.errors.general := by
  have hfd : (handleInputChange s f v).formData = s.formData.setField f v := rfl
  have herr : (handleInputChange s f v).errors =
      if (s.errors.getField f).isSome then s.errors.setField f none
      else s.errors := rfl
  refine ⟨?_, ?_, ?_, ?_, ?_⟩
  · rw [hfd]; exact formData_get_set_same s.formData f v
  · cases hv : s.errors.getField f with
    | none => rw [herr, hv]; simp [hv]
    | some a => rw [herr, hv]; simp [formErrors_get_set_same]
  · rw [hfd]; exact formData_get_set_other s.formData hne v
  · cases hv : s.errors.getField f with
    | none => rw [herr, hv]; simp
    | some a =>
        rw [herr, hv]; simp [formErrors_get_set_other s.errors hne]
  · cases hv : s.errors.getField f with
    | none => rw [herr, hv]; simp
    | some a => rw [herr, hv]; simp [FormErrors.general_setField]

/-- Witness for C9: editing the email field of a state carrying an email error
and a password error clears the email error, keeps the password error and the
general error, and stores the typed value. -/
theorem handleInputChange_frame_witness :
    (handleInputChange
        ⟨Mode.signin, ⟨"", "", "", ""⟩,
          ⟨some "Email is required", some "Password is required", none, none,
            some "general"⟩, false, false, false, false⟩
        InputField.email "a").formData.getField InputField.email = "a" ∧
    (handleInputChange
        ⟨Mode.signin, ⟨"", "", "", ""⟩,
          ⟨some "Email is required", some "Password is required", none, none,
            some "general"⟩, false, false, false, false⟩
        InputField.email "a").errors.getField InputField.email = none ∧
    (handleInputChange
        ⟨Mode.signin, ⟨"", "", "", ""⟩,
          ⟨some "Email is required", some "Password is required", none, none,
            some "general"⟩, false, false, false, false⟩
        InputField.email "a").formData.getField InputField.password =
      (⟨"", "", "", ""⟩ : FormData).getField InputField.password ∧
    (handleInputChange
        ⟨Mode.signin, ⟨"", "", "", ""⟩,
          ⟨some "Email is required", some "Password is required", none, none,
            some "general"⟩, false, false, false, false⟩
        InputField.email "a").errors.getField InputField.password =
      (⟨some "Email is required", some "Password is required", none, none,
          some "general"⟩ : FormErrors).getField InputField.password ∧
    (handleInputChange
        ⟨Mode.signin, ⟨"", "", "", ""⟩,
          ⟨some "Email is required", some "Password is required", none, none,
            some "general"⟩, false, false, false, false⟩
        InputField.email "a").errors.general =
      (⟨some "Email is required", some "Password is required", none, none,
          some "general"⟩ : FormErrors).general :=
  handleInputChange_frame
    ⟨Mode.signin, ⟨"", "", "", ""⟩,
      ⟨some "Email is required", some "Password is required", none, none,
        some "general"⟩, false, false, false, false⟩
    InputField.email InputField.password "a" (by decide)

/-- C10: the signup full-name minimum-length check runs on the untrimmed
string: `" A"` (one non-whitespace character padded to length 2) passes the
whole validation, while an all-whitespace name is rejected as required. -/
theorem fullName_length_untrimmed :
    (validateForm Mode.signup ⟨"a@b.co", "abcdef", " A", "abcdef"⟩).isEmpty = true ∧
    ((" A" : String).data.filter (fun c => !(isJsWs c))).length = 1 ∧
    (∀ fd : FormData, isBlank fd.fullName = true →
        (validateForm Mode.signup fd).fullName = some "Full name is required") := by
  refine ⟨by decide, by decide, ?_⟩
  intro fd h
  simp [validateForm, h]

/-- Witness for C10 at an all-whitespace full name. -/
theorem fullName_length_untrimmed_witness :
    (validateForm Mode.signup ⟨"", "", "   ", ""⟩).fullName =
      some "Full name is required" :=
  fullName_length_untrimmed.2.2 ⟨"", "", "   ", ""⟩ (by decide)

/-- C5: one firing of the profile-creation trigger always returns `NEW`
(account creation is never blocked); a successful insert appends exactly one
profile row with role `user` and the metadata full name or the empty string;
a raising insert leaves the table unchanged and only warns. -/
theorem create_user_profile_fail_open (b : ProfileInsertBehavior)
    (u : NewAuthUser) (ps : List ProfileRow) :
    (create_user_profile b u ps).returnedNew = true ∧
    (create_user_profile ProfileInsertBehavior.succeeds u ps).profiles =
      ps ++ [⟨u.id, u.metaFullName.getD "", u.email, "user"⟩] ∧
    (create_user_profile ProfileInsertBehavior.succeeds u ps).profiles.length =
      ps.length + 1 ∧
    (create_user_profile ProfileInsertBehavior.raises u ps).profiles = ps ∧
    (create_user_profile ProfileInsertBehavior.raises u ps).warned = true := by
  cases b <;> exact ⟨rfl, rfl, by simp [create_user_profile], rfl, rfl⟩

/-- C6 counterexample: an identity whose profile has role `admin` (but which is
not the registrant and whose email does not match) is granted access by the
claim, yet the policies deny it insert, update and delete on the registration;
only select succeeds. -/
theorem admin_write_denied_on_registrations :
    claimedRegistrationAccess [⟨1, "Xan", "x@y.zz", "admin"⟩] ⟨1, none⟩
      ⟨2, "other@e.co"⟩ = true ∧
    canSelectRegistration [⟨1, "Xan", "x@y.zz", "admin"⟩] ⟨1, none⟩
      ⟨2, "other@e.co"⟩ = true ∧
    canInsertRegistration [⟨1, "Xan", "x@y.zz", "admin"⟩] ⟨1, none⟩
      ⟨2, "other@e.co"⟩ = false ∧
    canUpdateRegistration [⟨1, "Xan", "x@y.zz", "admin"⟩] ⟨1, none⟩
      ⟨2, "other@e.co"⟩ = false ∧
    canDeleteRegistration [⟨1, "Xan", "x@y.zz", "admin"⟩] ⟨1, none⟩
      ⟨2, "other@e.co"⟩ = false := by
  decide

/-- C6 (amended): select access to a registration row is granted exactly to the
registrant identity, an identity whose profile email matches the registration
email, or an admin identity (profile role `admin`, a reserved profile email, or
a jwt `role` claim of `admin`); insert, update and delete are granted exactly
to the registrant or profile-email-matching identity, with no admin bypass. -/
theorem registration_policy_access (ps : List ProfileRow) (ident : CallerIdent)
    (r : RegistrationRow) :
    canSelectRegistration ps ident r =
      (claimedRegistrationAccess ps ident r || (ident.jwtRole == some "admin")) ∧
    canInsertRegistration ps ident r = policyOwnRegistration ps ident r ∧
    canUpdateRegistration ps ident r = policyOwnRegistration ps ident r ∧
    canDeleteRegistration ps ident r = policyOwnRegistration ps ident r := by
  refine ⟨?_, rfl, rfl, rfl⟩
  cases hp : profileOf ps ident.uid with
  | none =>
      simp [canSelectRegistration, policyOwnRegistration,
        policyAdminViewRegistrations, claimedRegistrationAccess, hp]
  | some p =>
      simp only [canSelectRegistration, policyOwnRegistration,
        policyAdminViewRegistrations, claimedRegistrationAccess, hp]
      cases ident.uid == r.user_id <;>
        cases r.user_email == p.email <;>
        cases p.role == "admin" <;>
        cases hpe : p.email == "admin@showgo.com" <;>
        cases hps : p.email == "support@showgo.com" <;>
        cases ident.jwtRole == some "admin" <;>
        simp

lemma submitEvent_of_success (s : ModalState) (r : RemoteBehavior)
    (h : s.isSuccess = true) :
    submitEvent s r = { state := s, networkCalled := false, scheduledCloses := [] } := by
  unfold submitEvent
  simp [h]

lemma submitEvent_closes_nil_or_success (s : ModalState) (r : RemoteBehavior) :
    (submitEvent s r).scheduledCloses = [] ∨
    ((submitEvent s r).scheduledCloses = [1500] ∧
      (submitEvent s r).state.isSuccess = true) := by
  unfold submitEvent
  cases hg : (s.isSuccess || s.isSubmitting) with
  | true => simp [hg]
  | false =>
      simp only [hg, Bool.false_eq_true, if_false]
      unfold handleSubmit startSubmit
      cases hv : (validateForm s.mode s.formData).isEmpty with
      | false => simp [hv]
      | true =>
          cases r with
          | throws => simp [hv, settleSubmit]
          | resolves e => cases e <;> simp [hv, settleSubmit]

lemma runSubmits_success_zero (rs : List RemoteBehavior) :
    ∀ s : ModalState, s.isSuccess = true → (runSubmits s rs).2 = 0 := by
  induction rs with
  | nil => intro s _; rfl
  | cons r rs ih =>
      intro s h
      simp only [runSubmits, submitEvent_of_success s r h]
      simp [ih s h]

lemma runSubmits_le_one (rs : List RemoteBehavior) :
    ∀ s : ModalState, (runSubmits s rs).2 ≤ 1 := by
  induction rs with
  | nil => intro s; simp [runSubmits]
  | cons r rs ih =>
      intro s
      rcases submitEvent_closes_nil_or_success s r with h | ⟨h1, h2⟩
      · simp only [runSubmits, h]
        simpa using ih (submitEvent s r).state
      · simp only [runSubmits, h1]
        simp [runSubmits_success_zero rs (submitEvent s r).state h2]

/-- C7: from a non-success, non-submitting state whose form validates, a
resolving remote call with no error moves the modal to the success display and
schedules exactly one `onClose` with the fixed 1500 ms delay; once the success
display is up the submit handler is gone, so any sequence of submit events
schedules at most one close per modal lifecycle. -/
theorem success_path_closes_once :
    (∀ s : ModalState,
        s.isSuccess = false → s.isSubmitting = false →
        (validateForm s.mode s.formData).isEmpty = true →
        submitEvent s (RemoteBehavior.resolves none) =
          { state :=
              { s with errors := noErrors, isSubmitting := false, isSuccess := true }
            networkCalled := true
            scheduledCloses := [1500] })
    ∧ (∀ (s : ModalState) (r : RemoteBehavior),
        s.isSuccess = true →
          submitEvent s r =
            { state := s, networkCalled := false, scheduledCloses := [] })
    ∧ (∀ (s : ModalState) (rs : List RemoteBehavior),
        (runSubmits s rs).2 ≤ 1) := by
  refine ⟨?_, fun s r h => submitEvent_of_success s r h,
    fun s rs => runSubmits_le_one rs s⟩
  intro s h1 h2 hv
  unfold submitEvent handleSubmit startSubmit
  simp [h1, h2, hv, settleSubmit]

/-- Witness for C7 at a valid signin state and an error-free remote result. -/
theorem success_path_closes_once_witness :
    submitEvent
        ⟨Mode.signin, ⟨"a@b.co", "abcdef", "", ""⟩, noErrors,
          false, false, false, false⟩
        (RemoteBehavior.resolves none) =
      { state :=
          ⟨Mode.signin, ⟨"a@b.co", "abcdef", "", ""⟩, noErrors,
            false, true, false, false⟩
        networkCalled := true
        scheduledCloses := [1500] } :=
  success_path_closes_once.1
    ⟨Mode.signin, ⟨"a@b.co", "abcdef", "", ""⟩, noErrors,
      false, false, false, false⟩
    rfl rfl (by decide)

/-- C8: a submission that issues the remote call first raises the submitting
flag; the flag is cleared on every settled outcome (success, remote error, or
thrown exception); and while the flag is up the submit control is disabled, so
a submit event is a no-op and no second call can start. -/
theorem single_submission_in_flight :
    (∀ s : ModalState,
        (startSubmit s).2 = true → (startSubmit s).1.isSubmitting = true)
    ∧ (∀ (s : ModalState) (r : RemoteBehavior),
        (handleSubmit s r).networkCalled = true →
          (handleSubmit s r).state.isSubmitting = false)
    ∧ (∀ (s : ModalState) (r : RemoteBehavior),
        s.isSubmitting = true →
          submitEvent s r =
            { state := s, networkCalled := false, scheduledCloses := [] }) := by
  refine ⟨?_, ?_, ?_⟩
  · intro s h
    unfold startSubmit at h ⊢
    cases hv : (validateForm s.mode s.formData).isEmpty with
    | true => simp [hv]
    | false => simp [hv] at h
  · intro s r h
    unfold handleSubmit startSubmit at h ⊢
    cases hv : (validateForm s.mode s.formData).isEmpty with
    | false => simp [hv] at h
    | true =>
        cases r with
        | throws => simp [hv, settleSubmit]
        | resolves e => cases e <;> simp [hv, settleSubmit]
  · intro s r h
    unfold submitEvent
    simp [h]

/-- Witness for C8: the flag is raised on a valid submission start, cleared on
a thrown outcome, and a submit event on an in-flight state is a no-op. -/
theorem single_submission_in_flight_witness :
    (startSubmit
        ⟨Mode.signin, ⟨"a@b.co", "abcdef", "", ""⟩, noErrors,
          false, false, false, false⟩).1.isSubmitting = true ∧
    (handleSubmit
        ⟨Mode.signin, ⟨"a@b.co", "abcdef", "", ""⟩, noErrors,
          false, false, false, false⟩
        RemoteBehavior.throws).state.isSubmitting = false ∧
    submitEvent
        ⟨Mode.signin, ⟨"a@b.co", "abcdef", "", ""⟩, noErrors,
          true, false, false, false⟩ RemoteBehavior.throws =
      { state :=
          ⟨Mode.signin, ⟨"a@b.co", "abcdef", "", ""⟩, noErrors,
            true, false, false, false⟩
        networkCalled := false
        scheduledCloses := [] } :=
  ⟨single_submission_in_flight.1
      ⟨Mode.signin, ⟨"a@b.co", "abcdef", "", ""⟩, noErrors,
        false, false, false, false⟩ (by decide),
    single_submission_in_flight.2.1
      ⟨Mode.signin, ⟨"a@b.co", "abcdef", "", ""⟩, noErrors,
        false, false, false, false⟩ RemoteBehavior.throws (by decide),
    single_submission_in_flight.2.2
      ⟨Mode.signin, ⟨"a@b.co", "abcdef", "", ""⟩, noErrors,
        true, false, false, false⟩ RemoteBehavior.throws rfl⟩
